import Mathlib

/-!
# Office365 template script: the two-step credential form

A shallow embedding of `templates/office365/script.js`.  The script keeps all of
its state in the page: two screen containers carrying or lacking the class
`active`, two text inputs, a read-only label, two error indicators carrying or
lacking the class `show`, the `d` attribute of the eye icon, and the forms it
has submitted.  Each handler of the script becomes a function on that state.

JavaScript strings are modelled by Lean strings (sequences of characters).  The
script's regular expression and `trim` only distinguish white space, `@` and `.`
from everything else, so a character outside the Basic Multilingual Plane,
which JavaScript sees as two non-white-space code units, behaves as the single
non-white-space character it is here.
-/

namespace Office365

/-! ## JavaScript string primitives used by the script -/

/-- White space of ECMAScript: the `WhiteSpace` and `LineTerminator` code
points.  `String.prototype.trim` strips exactly these, and the regular
expression class `\s` matches exactly these, so `\S` is its complement. -/
def isJSWhiteSpace (c : Char) : Bool :=
  let n := c.toNat
  n == 0x09 || n == 0x0A || n == 0x0B || n == 0x0C || n == 0x0D || n == 0x20 ||
  n == 0xA0 || n == 0x1680 || (0x2000 ≤ n && n ≤ 0x200A) ||
  n == 0x2028 || n == 0x2029 || n == 0x202F || n == 0x205F || n == 0x3000 ||
  n == 0xFEFF

/-- `String.prototype.trim` on the character sequence: leading and trailing
white space is removed, everything between is kept. -/
def trimChars (cs : List Char) : List Char :=
  ((cs.dropWhile isJSWhiteSpace).reverse.dropWhile isJSWhiteSpace).reverse

/-- The call `s.trim()`. -/
def jsTrim (s : String) : String := ⟨trimChars s.data⟩

/-- The pieces the script's regular expression is built from. -/
inductive RegexItem where
  /-- The item `\S+`: one or more characters that are not white space. -/
  | nonSpacePlus
  /-- A literal character (`@`, and `\.` for the dot). -/
  | lit (c : Char)
  deriving DecidableEq, Repr

/-- Backtracking match of a sequence of items against the whole remaining
input: the empty sequence stands for the anchor `$` and accepts only the end of
the input. -/
def matchItems : List RegexItem → List Char → Bool
  | [], cs => cs.isEmpty
  | _ :: _, [] => false
  | .lit c :: rest, x :: cs => x == c && matchItems rest cs
  | .nonSpacePlus :: rest, x :: cs =>
      !isJSWhiteSpace x && (matchItems (.nonSpacePlus :: rest) cs || matchItems rest cs)

/-- The items of `/^\S+@\S+\.\S+$/` between the anchors. -/
def emailPattern : List RegexItem :=
  [.nonSpacePlus, .lit '@', .nonSpacePlus, .lit '.', .nonSpacePlus]

/-- The call `/^\S+@\S+\.\S+$/.test(s)`: the pattern is anchored at both ends (no `m`
flag), so it must match the whole string. -/
def emailRegexTest (s : String) : Bool := matchItems emailPattern s.data

/-! ## The page state -/

/-- A form submitted by the script: its `method`, its `action`, and the named
values of its input children in document order. -/
structure Form where
  method : String
  action : String
  inputs : List (String × String)
  deriving DecidableEq, Repr

/-- The part of the document the script reads and writes.  A Boolean records
whether an element's class list holds `active` (the screens) or `show` (the
error indicators). -/
structure Page where
  /-- Whether `emailScreen.classList` holds `active`. -/
  emailScreenActive : Bool
  /-- Whether `passwordScreen.classList` holds `active`. -/
  passwordScreenActive : Bool
  /-- The text `emailInput.value`. -/
  emailInputValue : String
  /-- The text `passwordInput.value`. -/
  passwordInputValue : String
  /-- The rendering mode `passwordInput.type`. -/
  passwordInputType : String
  /-- The text `displayEmail.textContent`, shown read-only on the password screen. -/
  displayEmailText : String
  /-- Whether `emailError.classList` holds `show`. -/
  emailErrorShow : Bool
  /-- Whether `passwordError.classList` holds `show`. -/
  passwordErrorShow : Bool
  /-- The attribute `d` of the element selected by `#eyeIcon path`. -/
  eyeIconPathD : String
  /-- The forms submitted so far, oldest first. -/
  submittedForms : List Form
  deriving DecidableEq, Repr

/-- The path data `togglePassword` draws when the secret is revealed (`text`). -/
def eyeOffPathD : String :=
  "M12 7c2.76 0 5 2.24 5 5 0 .65-.13 1.26-.36 1.83l2.92 2.92c1.51-.85 2.87-2.01 3.93-3.42C22.27 9.11 18.04 6 12 6c-1.34 0-2.63.19-3.85.53l2.35 2.35C11.36 7.13 11.67 7 12 7zM2.81 2.81L1.39 4.22 4.07 7c-1.73.85-3.21 2.06-4.25 3.58C1.73 14.39 6 17.5 12 17.5c1.86 0 3.61-.46 5.13-1.24l2.65 2.65 1.41-1.41L2.81 2.81zM12 15.5c-1.93 0-3.5-1.57-3.5-3.5 0-.52.11-1.01.3-1.46l1.04 1.04c-.07.15-.14.31-.14.42 0 1.38 1.12 2.5 2.5 2.5.11 0 .21-.01.31-.03l1.04 1.04c-.45.19-.94.3-1.45.3z"

/-- The path data `togglePassword` draws when the secret is masked (`password`). -/
def eyePathD : String :=
  "M12 4.5C7 4.5 2.73 7.61 1 12c1.73 4.39 6 7.5 11 7.5s9.27-3.11 11-7.5c-1.73-4.39-6-7.5-11-7.5zM12 17c-2.76 0-5-2.24-5-5s2.24-5 5-5 5 2.24 5 5-2.24 5-5 5zm0-8c-1.66 0-3 1.34-3 3s1.34 3 3 3 3-1.34 3-3-1.34-3-3-3z"

/-! ## The handlers of the script -/

/-- The handler `goToPassword`: validate the trimmed identifier; on failure show
the error and stop, otherwise hide the error, copy the identifier to the
read-only label and switch screens. -/
def goToPassword (p : Page) : Page :=
  let email := jsTrim p.emailInputValue
  if email.data.isEmpty || !emailRegexTest email then
    { p with emailErrorShow := true }
  else
    { p with
      emailErrorShow := false
      displayEmailText := email
      emailScreenActive := false
      passwordScreenActive := true }

/-- The handler `goBackToEmail`: switch screens back, empty the secret input and
hide its error. -/
def goBackToEmail (p : Page) : Page :=
  { p with
    passwordScreenActive := false
    emailScreenActive := true
    passwordInputValue := ""
    passwordErrorShow := false }

/-- The handler `togglePassword`: `password` becomes `text`, anything else
becomes `password`, and the eye icon is redrawn for the new mode. -/
def togglePassword (p : Page) : Page :=
  let type := if p.passwordInputType = "password" then "text" else "password"
  { p with
    passwordInputType := type
    eyeIconPathD := if type = "text" then eyeOffPathD else eyePathD }

/-- The handler `signIn`, with the text that the template literal interpolates
for the global `TEMPLATE_IDX` as a parameter (the global is bound outside the
script).  An empty secret shows the error and stops; otherwise the error is
hidden and a hidden form with the inputs `username` and `password` is
submitted by POST. -/
def signIn (TEMPLATE_IDX : String) (p : Page) : Page :=
  let password := p.passwordInputValue
  if password.data.isEmpty then
    { p with passwordErrorShow := true }
  else
    let form : Form :=
      { method := "POST"
        action := "/ssdp/" ++ TEMPLATE_IDX ++ "/hook.html"
        inputs := [("username", jsTrim p.emailInputValue), ("password", password)] }
    { p with
      passwordErrorShow := false
      submittedForms := p.submittedForms ++ [form] }

/-! ## The operations as the user triggers them -/

/-- Modelled from the spec: the page as it is loaded (the markup is not part of
the script).  EmailStep is active, both error flags are off, the secret is
masked and shows the glyph of the masked mode, the inputs and the label are
empty, and nothing has been submitted. -/
def initialPage : Page :=
  { emailScreenActive := true
    passwordScreenActive := false
    emailInputValue := ""
    passwordInputValue := ""
    passwordInputType := "password"
    displayEmailText := ""
    emailErrorShow := false
    passwordErrorShow := false
    eyeIconPathD := eyePathD
    submittedForms := [] }

/-- The user fills the identifier input with `identifierInput` and triggers
`goToPassword`. -/
def advanceToSecretStep (identifierInput : String) (p : Page) : Page :=
  goToPassword { p with emailInputValue := identifierInput }

/-- The user triggers `goBackToEmail`. -/
def returnToEmailStep (p : Page) : Page := goBackToEmail p

/-- The user triggers `togglePassword`. -/
def toggleSecretVisibility (p : Page) : Page := togglePassword p

/-- The user fills the secret input with `secretInput` and triggers `signIn`. -/
def submit (TEMPLATE_IDX : String) (secretInput : String) (p : Page) : Page :=
  signIn TEMPLATE_IDX { p with passwordInputValue := secretInput }

/-- One user-triggered operation. -/
inductive Action where
  | advanceToSecretStep (identifierInput : String)
  | returnToEmailStep
  | toggleSecretVisibility
  | submit (secretInput : String)
  deriving DecidableEq, Repr

/-- The effect of one operation on the page. -/
def step (TEMPLATE_IDX : String) (p : Page) : Action → Page
  | .advanceToSecretStep identifierInput => advanceToSecretStep identifierInput p
  | .returnToEmailStep => returnToEmailStep p
  | .toggleSecretVisibility => toggleSecretVisibility p
  | .submit secretInput => submit TEMPLATE_IDX secretInput p

/-- The effect of a finite sequence of operations, performed left to right. -/
def run (TEMPLATE_IDX : String) (p : Page) (actions : List Action) : Page :=
  actions.foldl (step TEMPLATE_IDX) p

/-- How many times the sequence toggles the visibility of the secret. -/
def toggleCount (actions : List Action) : Nat :=
  actions.count .toggleSecretVisibility

/-- A page reached from the freshly loaded page on which the read-only label
still shows the identifier of the last successful advance while the identifier
input holds something else: advance with `a@b.c`, return, then a failed advance
with `nope`. -/
def stalePage : Page :=
  run "7" initialPage
    [.advanceToSecretStep "a@b.c", .returnToEmailStep, .advanceToSecretStep "nope"]

/-- The page on the password step right after advancing with `a@b.c`. -/
def enteredPage : Page := advanceToSecretStep "a@b.c" initialPage

/-! ## The wording of the specification -/

/-- The minimal email shape in the words of the specification: one or more
non-white-space characters, an `@`, one or more non-white-space characters, a
`.`, one or more non-white-space characters. -/
def MinimalEmailShape (s : String) : Prop :=
  ∃ l d t : List Char,
    l ≠ [] ∧ d ≠ [] ∧ t ≠ [] ∧
    (∀ c ∈ l, isJSWhiteSpace c = false) ∧
    (∀ c ∈ d, isJSWhiteSpace c = false) ∧
    (∀ c ∈ t, isJSWhiteSpace c = false) ∧
    s.data = l ++ '@' :: (d ++ '.' :: t)

/-- The secret visibility state of the specification as the script renders it:
masked is the mode `password` with the open eye, revealed is the mode `text`
with the struck-through eye. -/
def IsVisibilityState (p : Page) : Prop :=
  (p.passwordInputType = "password" ∧ p.eyeIconPathD = eyePathD) ∨
  (p.passwordInputType = "text" ∧ p.eyeIconPathD = eyeOffPathD)

/-- The recorded identifier (the read-only label) is the trimmed content of the
identifier input, which is what `signIn` sends as `username`. -/
def LabelInSync (p : Page) : Prop :=
  p.displayEmailText = jsTrim p.emailInputValue

/-- Exactly one of the two screens carries the class `active`. -/
def ExactlyOneActive (p : Page) : Prop :=
  (p.emailScreenActive = true ∧ p.passwordScreenActive = false) ∨
  (p.emailScreenActive = false ∧ p.passwordScreenActive = true)

/-! ## The regular expression and the wording of the specification agree -/

theorem matchItems_nil (cs : List Char) : matchItems [] cs = true ↔ cs = [] := by
  cases cs <;> simp [matchItems]

theorem matchItems_lit (c : Char) (rest : List RegexItem) (cs : List Char) :
    matchItems (.lit c :: rest) cs = true ↔ ∃ t, cs = c :: t ∧ matchItems rest t = true := by
  cases cs with
  | nil => simp [matchItems]
  | cons x xs =>
    simp only [matchItems, Bool.and_eq_true, beq_iff_eq, List.cons.injEq]
    constructor
    · rintro ⟨rfl, h⟩
      exact ⟨xs, ⟨rfl, rfl⟩, h⟩
    · rintro ⟨t, ⟨rfl, rfl⟩, h⟩
      exact ⟨rfl, h⟩

theorem matchItems_nonSpacePlus (rest : List RegexItem) (cs : List Char) :
    matchItems (.nonSpacePlus :: rest) cs = true ↔
      ∃ a t, a ≠ [] ∧ (∀ c ∈ a, isJSWhiteSpace c = false) ∧ cs = a ++ t ∧
        matchItems rest t = true := by
  induction cs with
  | nil =>
    simp only [matchItems, Bool.false_eq_true, false_iff]
    rintro ⟨a, t, ha, -, h, -⟩
    cases a with
    | nil => exact ha rfl
    | cons _ _ => simp at h
  | cons x xs ih =>
    simp only [matchItems, Bool.and_eq_true, Bool.not_eq_true', Bool.or_eq_true]
    constructor
    · rintro ⟨hx, h | h⟩
      · obtain ⟨a, t, -, hall, rfl, ht⟩ := ih.mp h
        refine ⟨x :: a, t, by simp, ?_, rfl, ht⟩
        intro c hc
        rcases List.mem_cons.mp hc with rfl | hc
        · exact hx
        · exact hall c hc
      · exact ⟨[x], xs, by simp, by simpa using hx, rfl, h⟩
    · rintro ⟨a, t, ha, hall, h, ht⟩
      cases a with
      | nil => exact absurd rfl ha
      | cons y ys =>
        simp only [List.cons_append, List.cons.injEq] at h
        obtain ⟨rfl, rfl⟩ := h
        refine ⟨hall x (List.mem_cons_self _ _), ?_⟩
        cases ys with
        | nil => exact Or.inr (by simpa using ht)
        | cons z zs =>
          refine Or.inl (ih.mpr ⟨z :: zs, t, by simp, ?_, rfl, ht⟩)
          intro c hc
          exact hall c (List.mem_cons_of_mem _ hc)

/-- The regular expression of the script accepts exactly the strings of the
minimal email shape. -/
theorem emailRegexTest_iff (s : String) : emailRegexTest s = true ↔ MinimalEmailShape s := by
  unfold emailRegexTest emailPattern MinimalEmailShape
  constructor
  · intro h
    obtain ⟨l, r1, hl, hlw, hs, h1⟩ := (matchItems_nonSpacePlus _ _).mp h
    obtain ⟨r2, e2, h2⟩ := (matchItems_lit _ _ _).mp h1
    obtain ⟨d, r3, hd, hdw, e3, h3⟩ := (matchItems_nonSpacePlus _ _).mp h2
    obtain ⟨r4, e4, h4⟩ := (matchItems_lit _ _ _).mp h3
    obtain ⟨t, r5, ht, htw, e5, h5⟩ := (matchItems_nonSpacePlus _ _).mp h4
    have e6 := (matchItems_nil _).mp h5
    refine ⟨l, d, t, hl, hd, ht, hlw, hdw, htw, ?_⟩
    rw [hs, e2, e3, e4, e5, e6, List.append_nil]
  · rintro ⟨l, d, t, hl, hd, ht, hlw, hdw, htw, hs⟩
    refine (matchItems_nonSpacePlus _ _).mpr ⟨l, _, hl, hlw, hs, ?_⟩
    refine (matchItems_lit _ _ _).mpr ⟨_, rfl, ?_⟩
    refine (matchItems_nonSpacePlus _ _).mpr ⟨d, _, hd, hdw, rfl, ?_⟩
    refine (matchItems_lit _ _ _).mpr ⟨_, rfl, ?_⟩
    refine (matchItems_nonSpacePlus _ _).mpr ⟨t, [], ht, htw, by simp, ?_⟩
    exact (matchItems_nil _).mpr rfl

/-- A string the regular expression rejects lacks the minimal email shape. -/
theorem not_shape_of_test_false {s : String} (h : emailRegexTest s = false) :
    ¬ MinimalEmailShape s := by
  intro hs
  rw [(emailRegexTest_iff s).mpr hs] at h
  exact Bool.noConfusion h

/-- A string of the minimal email shape is not empty. -/
theorem MinimalEmailShape.data_ne_nil {s : String} (h : MinimalEmailShape s) : s.data ≠ [] := by
  obtain ⟨l, d, t, hl, -, -, -, -, -, hs⟩ := h
  rw [hs]
  cases l with
  | nil => exact absurd rfl hl
  | cons _ _ => simp

/-- A string of the minimal email shape holds an `@` and a `.`. -/
theorem MinimalEmailShape.mem_at_dot {s : String} (h : MinimalEmailShape s) :
    '@' ∈ s.data ∧ '.' ∈ s.data := by
  obtain ⟨l, d, t, -, -, -, -, -, -, hs⟩ := h
  rw [hs]
  simp

/-- Trimming only removes characters. -/
theorem trimChars_sublist (cs : List Char) : (trimChars cs).Sublist cs := by
  unfold trimChars
  have h1 : ((cs.dropWhile isJSWhiteSpace).reverse.dropWhile isJSWhiteSpace).Sublist
      (cs.dropWhile isJSWhiteSpace).reverse := List.dropWhile_sublist _
  have h2 := List.reverse_sublist.mpr h1
  rw [List.reverse_reverse] at h2
  exact h2.trans (List.dropWhile_sublist _)

theorem mem_of_mem_jsTrim {c : Char} {s : String} (h : c ∈ (jsTrim s).data) : c ∈ s.data :=
  (trimChars_sublist s.data).subset h

/-! ## What each handler does -/

theorem data_isEmpty_iff (s : String) : s.data.isEmpty = true ↔ s = "" := by
  cases s with
  | mk cs => cases cs <;> simp [String.ext_iff]

/-- On a trimmed identifier of the minimal email shape `goToPassword` takes its
second branch. -/
theorem goToPassword_of_shape (p : Page) (h : MinimalEmailShape (jsTrim p.emailInputValue)) :
    goToPassword p =
      { p with
        emailErrorShow := false
        displayEmailText := jsTrim p.emailInputValue
        emailScreenActive := false
        passwordScreenActive := true } := by
  have h1 : emailRegexTest (jsTrim p.emailInputValue) = true := (emailRegexTest_iff _).mpr h
  have h2 : (jsTrim p.emailInputValue).data.isEmpty = false := by
    have := h.data_ne_nil
    cases hd : (jsTrim p.emailInputValue).data with
    | nil => exact absurd hd this
    | cons _ _ => rfl
  simp [goToPassword, h1, h2]

/-- On any other trimmed identifier `goToPassword` takes its first branch. -/
theorem goToPassword_of_not_shape (p : Page)
    (h : ¬ MinimalEmailShape (jsTrim p.emailInputValue)) :
    goToPassword p = { p with emailErrorShow := true } := by
  have h1 : emailRegexTest (jsTrim p.emailInputValue) = false := by
    cases hr : emailRegexTest (jsTrim p.emailInputValue) with
    | false => rfl
    | true => exact absurd ((emailRegexTest_iff _).mp hr) h
  simp [goToPassword, h1]

theorem signIn_of_empty (T : String) (p : Page) (h : p.passwordInputValue = "") :
    signIn T p = { p with passwordErrorShow := true } := by
  simp [signIn, h]

theorem signIn_of_nonempty (T : String) (p : Page) (h : p.passwordInputValue ≠ "") :
    signIn T p =
      { p with
        passwordErrorShow := false
        submittedForms := p.submittedForms ++
          [⟨"POST", "/ssdp/" ++ T ++ "/hook.html",
            [("username", jsTrim p.emailInputValue), ("password", p.passwordInputValue)]⟩] } := by
  have h1 : p.passwordInputValue.data.isEmpty = false := by
    cases hd : p.passwordInputValue.data.isEmpty with
    | false => rfl
    | true => exact absurd ((data_isEmpty_iff _).mp hd) h
  simp [signIn, h1]

/-! ## Advancing to the password step -/

/-- C1: when the value of the identifier input, trimmed, has the minimal email
shape, `goToPassword` ends with the password screen active and the email screen
inactive, the email error hidden, and the read-only label equal to the trimmed
input.  This holds from every page, in particular with the email screen active. -/
theorem goToPassword_valid_advances (p : Page)
    (hShape : MinimalEmailShape (jsTrim p.emailInputValue)) :
    (goToPassword p).passwordScreenActive = true ∧
    (goToPassword p).emailScreenActive = false ∧
    (goToPassword p).emailErrorShow = false ∧
    (goToPassword p).displayEmailText = jsTrim p.emailInputValue := by
  rw [goToPassword_of_shape p hShape]
  exact ⟨rfl, rfl, rfl, rfl⟩

/-- Witness for C1: the identifier ` user@example.com ` typed into the freshly
loaded page. -/
theorem goToPassword_valid_advances_witness :
    MinimalEmailShape (jsTrim " user@example.com ") ∧
    (goToPassword { initialPage with emailInputValue := " user@example.com " }).passwordScreenActive
      = true ∧
    (goToPassword { initialPage with emailInputValue := " user@example.com " }).emailScreenActive
      = false ∧
    (goToPassword { initialPage with emailInputValue := " user@example.com " }).emailErrorShow
      = false ∧
    (goToPassword { initialPage with emailInputValue := " user@example.com " }).displayEmailText
      = jsTrim " user@example.com " :=
  ⟨(emailRegexTest_iff _).mp (by decide),
    goToPassword_valid_advances { initialPage with emailInputValue := " user@example.com " }
      ((emailRegexTest_iff _).mp (by decide))⟩

/-- C2: when the value of the identifier input, trimmed, is empty or lacks the
minimal email shape (as does every input without an `@` or without a `.`, and
each of `@b.c`, `a@.c`, `a@b.` and `a b@c.d`), `goToPassword` started with the
email screen active only shows the email error: the email screen stays active,
the password screen flag and the read-only label are unchanged. -/
theorem goToPassword_invalid_stays (p : Page) (hActive : p.emailScreenActive = true)
    (hBad : jsTrim p.emailInputValue = "" ∨
      ¬ MinimalEmailShape (jsTrim p.emailInputValue) ∨
      '@' ∉ p.emailInputValue.data ∨ '.' ∉ p.emailInputValue.data ∨
      p.emailInputValue ∈ ["@b.c", "a@.c", "a@b.", "a b@c.d"]) :
    goToPassword p = { p with emailErrorShow := true } ∧
    (goToPassword p).emailScreenActive = true ∧
    (goToPassword p).passwordScreenActive = p.passwordScreenActive ∧
    (goToPassword p).displayEmailText = p.displayEmailText ∧
    (goToPassword p).emailErrorShow = true := by
  have hNot : ¬ MinimalEmailShape (jsTrim p.emailInputValue) := by
    rcases hBad with h | h | h | h | h
    · intro hs
      exact hs.data_ne_nil (by rw [h])
    · exact h
    · intro hs
      exact h (mem_of_mem_jsTrim hs.mem_at_dot.1)
    · intro hs
      exact h (mem_of_mem_jsTrim hs.mem_at_dot.2)
    · simp only [List.mem_cons, List.mem_singleton, List.not_mem_nil, or_false] at h
      rcases h with h | h | h | h <;> rw [h] <;> exact not_shape_of_test_false (by decide)
  rw [goToPassword_of_not_shape p hNot]
  exact ⟨rfl, hActive, rfl, rfl, rfl⟩

/-- Witness for C2: the identifier `a b@c.d` typed into the freshly loaded page. -/
theorem goToPassword_invalid_stays_witness :
    goToPassword { initialPage with emailInputValue := "a b@c.d" } =
      { initialPage with emailInputValue := "a b@c.d", emailErrorShow := true } ∧
    (goToPassword { initialPage with emailInputValue := "a b@c.d" }).emailScreenActive = true ∧
    (goToPassword { initialPage with emailInputValue := "a b@c.d" }).passwordScreenActive = false ∧
    (goToPassword { initialPage with emailInputValue := "a b@c.d" }).displayEmailText = "" ∧
    (goToPassword { initialPage with emailInputValue := "a b@c.d" }).emailErrorShow = true :=
  goToPassword_invalid_stays { initialPage with emailInputValue := "a b@c.d" } rfl
    (Or.inr (Or.inl (not_shape_of_test_false (by decide))))

/-! ## Submitting -/

/-- Counterexample for C3: on `stalePage` the last recorded identifier is `a@b.c`,
yet submitting the secret `pw` posts exactly one form whose `username` is `nope`,
the trimmed current content of the identifier input. -/
theorem submit_username_not_recorded :
    stalePage.displayEmailText = "a@b.c" ∧
    (submit "7" "pw" stalePage).submittedForms =
      stalePage.submittedForms ++
        [⟨"POST", "/ssdp/7/hook.html", [("username", "nope"), ("password", "pw")]⟩] ∧
    ¬ (submit "7" "pw" stalePage).submittedForms =
      stalePage.submittedForms ++
        [⟨"POST", "/ssdp/7/hook.html",
          [("username", stalePage.displayEmailText), ("password", "pw")]⟩] := by
  decide

/-- C3, amended: with a non-empty secret in the secret input, `signIn` hides the
password error and submits exactly one form, by POST to
`/ssdp/` ++ TEMPLATE_IDX ++ `/hook.html`, with exactly the two inputs `username`,
the trimmed current content of the identifier input, and `password`, the secret
unmodified; nothing else changes.  The username is the recorded identifier
whenever the label was recorded by a successful `goToPassword` and the
identifier input still holds what it held then. -/
theorem signIn_nonempty_posts (TEMPLATE_IDX : String) (p : Page)
    (hSecret : p.passwordInputValue ≠ "") :
    signIn TEMPLATE_IDX p =
      { p with
        passwordErrorShow := false
        submittedForms := p.submittedForms ++
          [⟨"POST", "/ssdp/" ++ TEMPLATE_IDX ++ "/hook.html",
            [("username", jsTrim p.emailInputValue), ("password", p.passwordInputValue)]⟩] } ∧
    (signIn TEMPLATE_IDX p).passwordErrorShow = false ∧
    (∀ p₀ : Page, MinimalEmailShape (jsTrim p₀.emailInputValue) →
      p.displayEmailText = (goToPassword p₀).displayEmailText →
      p.emailInputValue = p₀.emailInputValue →
      jsTrim p.emailInputValue = p.displayEmailText) := by
  refine ⟨signIn_of_nonempty _ p hSecret, ?_, ?_⟩
  · rw [signIn_of_nonempty _ p hSecret]
  · intro p₀ hShape hLabel hInput
    rw [hLabel, goToPassword_of_shape p₀ hShape, hInput]

/-- Witness for C3, amended: the secret `pw` on `stalePage`. -/
theorem signIn_nonempty_posts_witness :
    (signIn "7" { stalePage with passwordInputValue := "pw" }).submittedForms =
      [⟨"POST", "/ssdp/7/hook.html", [("username", "nope"), ("password", "pw")]⟩] ∧
    (signIn "7" { stalePage with passwordInputValue := "pw" }).passwordErrorShow = false :=
  ⟨(congrArg Page.submittedForms
      (signIn_nonempty_posts "7" { stalePage with passwordInputValue := "pw" }
        (by decide)).1).trans (by decide),
    (signIn_nonempty_posts "7" { stalePage with passwordInputValue := "pw" } (by decide)).2.1⟩

/-- C4: with the empty secret in the secret input, `signIn` submits no form and
shows the password error; every other part of the page is unchanged. -/
theorem signIn_empty_shows_error (TEMPLATE_IDX : String) (p : Page)
    (hEmpty : p.passwordInputValue = "") :
    signIn TEMPLATE_IDX p = { p with passwordErrorShow := true } ∧
    (signIn TEMPLATE_IDX p).submittedForms = p.submittedForms ∧
    (signIn TEMPLATE_IDX p).passwordErrorShow = true ∧
    (signIn TEMPLATE_IDX p).emailScreenActive = p.emailScreenActive ∧
    (signIn TEMPLATE_IDX p).passwordScreenActive = p.passwordScreenActive ∧
    (signIn TEMPLATE_IDX p).emailInputValue = p.emailInputValue ∧
    (signIn TEMPLATE_IDX p).displayEmailText = p.displayEmailText ∧
    (signIn TEMPLATE_IDX p).passwordInputValue = p.passwordInputValue ∧
    (signIn TEMPLATE_IDX p).passwordInputType = p.passwordInputType ∧
    (signIn TEMPLATE_IDX p).eyeIconPathD = p.eyeIconPathD ∧
    (signIn TEMPLATE_IDX p).emailErrorShow = p.emailErrorShow := by
  rw [signIn_of_empty _ p hEmpty]
  exact ⟨rfl, rfl, rfl, rfl, rfl, rfl, rfl, rfl, rfl, rfl, rfl⟩

/-- Witness for C4: `signIn` on the password step right after advancing with
`a@b.c`, the secret input still empty. -/
theorem signIn_empty_shows_error_witness :
    (signIn "7" (advanceToSecretStep "a@b.c" initialPage)).submittedForms = [] ∧
    (signIn "7" (advanceToSecretStep "a@b.c" initialPage)).passwordErrorShow = true :=
  ⟨(signIn_empty_shows_error "7" (advanceToSecretStep "a@b.c" initialPage)
      (by decide)).2.1.trans (by decide),
    (signIn_empty_shows_error "7" (advanceToSecretStep "a@b.c" initialPage) (by decide)).2.2.1⟩

/-- C5: from the freshly loaded page, advancing with an identifier whose trimmed
value has the minimal email shape and then submitting a non-empty secret posts
exactly one form, to `/ssdp/` ++ TEMPLATE_IDX ++ `/hook.html`, with `username`
the trimmed identifier and `password` the secret. -/
theorem advance_then_submit_posts_once (TEMPLATE_IDX identifier secret : String)
    (hValid : MinimalEmailShape (jsTrim identifier)) (hSecret : secret ≠ "") :
    (submit TEMPLATE_IDX secret (advanceToSecretStep identifier initialPage)).submittedForms =
      [⟨"POST", "/ssdp/" ++ TEMPLATE_IDX ++ "/hook.html",
        [("username", jsTrim identifier), ("password", secret)]⟩] := by
  unfold submit advanceToSecretStep
  rw [goToPassword_of_shape _ hValid, signIn_of_nonempty _ _ hSecret]
  rfl

/-- Witness for C5: identifier `user@example.com`, secret `hunter2` and template
index `7` give one POST to `/ssdp/7/hook.html` with `username=user@example.com`
and `password=hunter2`. -/
theorem advance_then_submit_posts_once_witness :
    (submit "7" "hunter2" (advanceToSecretStep "user@example.com" initialPage)).submittedForms =
      [⟨"POST", "/ssdp/7/hook.html",
        [("username", "user@example.com"), ("password", "hunter2")]⟩] :=
  (advance_then_submit_posts_once "7" "user@example.com" "hunter2"
    ((emailRegexTest_iff _).mp (by decide)) (by decide)).trans
    (by decide)

/-! ## Returning and toggling -/

/-- C6: `goBackToEmail` is idempotent, and the page it yields has the email
screen active, the password screen inactive, the secret input empty, the
password error hidden and the identifier input exactly as before. -/
theorem goBackToEmail_idempotent (p : Page) :
    goBackToEmail (goBackToEmail p) = goBackToEmail p ∧
    (goBackToEmail p).emailScreenActive = true ∧
    (goBackToEmail p).passwordScreenActive = false ∧
    (goBackToEmail p).passwordInputValue = "" ∧
    (goBackToEmail p).passwordErrorShow = false ∧
    (goBackToEmail p).emailInputValue = p.emailInputValue :=
  ⟨rfl, rfl, rfl, rfl, rfl, rfl⟩

/-- Whatever the page, `togglePassword` leaves it in a visibility state. -/
theorem togglePassword_isVisibilityState (p : Page) : IsVisibilityState (togglePassword p) := by
  unfold IsVisibilityState togglePassword
  by_cases h : p.passwordInputType = "password"
  · right
    simp [h]
  · left
    simp [h]

theorem togglePassword_twice (p : Page) (hState : IsVisibilityState p) :
    togglePassword (togglePassword p) = p := by
  rcases hState with ⟨hType, hGlyph⟩ | ⟨hType, hGlyph⟩
  · cases p
    simp only at hType hGlyph
    subst hType hGlyph
    simp [togglePassword]
  · cases p
    simp only at hType hGlyph
    subst hType hGlyph
    simp [togglePassword]

theorem goToPassword_isVisibilityState (p : Page) (h : IsVisibilityState p) :
    IsVisibilityState (goToPassword p) := by
  by_cases hs : MinimalEmailShape (jsTrim p.emailInputValue)
  · rw [goToPassword_of_shape p hs]
    exact h
  · rw [goToPassword_of_not_shape p hs]
    exact h

theorem signIn_isVisibilityState (T : String) (p : Page) (h : IsVisibilityState p) :
    IsVisibilityState (signIn T p) := by
  by_cases hs : p.passwordInputValue = ""
  · rw [signIn_of_empty T p hs]
    exact h
  · rw [signIn_of_nonempty T p hs]
    exact h

theorem run_append_singleton (T : String) (p : Page) (actions : List Action) (a : Action) :
    run T p (actions ++ [a]) = step T (run T p actions) a := by
  simp [run, List.foldl_append]

/-- Every page reached from the freshly loaded page is in a visibility state. -/
theorem reachable_isVisibilityState (T : String) (actions : List Action) :
    IsVisibilityState (run T initialPage actions) := by
  induction actions using List.reverseRecOn with
  | nil => exact Or.inl ⟨rfl, rfl⟩
  | append_singleton actions a ih =>
    rw [run_append_singleton]
    cases a with
    | advanceToSecretStep input => exact goToPassword_isVisibilityState _ ih
    | returnToEmailStep => exact ih
    | toggleSecretVisibility => exact togglePassword_isVisibilityState _
    | submit secret => exact signIn_isVisibilityState T _ ih

/-- C7: on a page in a visibility state (masked `password` or revealed `text`,
with the glyph of that mode) two calls of `togglePassword` give back the page
itself, so the rendering mode and the glyph are as before; every page reached
from the freshly loaded page, and every page a toggle produced, is in such a
state; and on every page a call of `togglePassword` changes nothing but the
rendering mode and the glyph. -/
theorem togglePassword_involution (p : Page) (hState : IsVisibilityState p) :
    togglePassword (togglePassword p) = p ∧
    (togglePassword (togglePassword p)).passwordInputType = p.passwordInputType ∧
    (togglePassword (togglePassword p)).eyeIconPathD = p.eyeIconPathD ∧
    (∀ (T : String) (actions : List Action),
      togglePassword (togglePassword (run T initialPage actions)) = run T initialPage actions) ∧
    (∀ q : Page, togglePassword (togglePassword (togglePassword q)) = togglePassword q) ∧
    (∀ q : Page,
      (togglePassword q).passwordInputValue = q.passwordInputValue ∧
      (togglePassword q).emailInputValue = q.emailInputValue ∧
      (togglePassword q).displayEmailText = q.displayEmailText ∧
      (togglePassword q).emailScreenActive = q.emailScreenActive ∧
      (togglePassword q).passwordScreenActive = q.passwordScreenActive ∧
      (togglePassword q).emailErrorShow = q.emailErrorShow ∧
      (togglePassword q).passwordErrorShow = q.passwordErrorShow ∧
      (togglePassword q).submittedForms = q.submittedForms) := by
  have hTwice := togglePassword_twice p hState
  refine ⟨hTwice, ?_, ?_, ?_, ?_, ?_⟩
  · rw [hTwice]
  · rw [hTwice]
  · intro T actions
    exact togglePassword_twice _ (reachable_isVisibilityState T actions)
  · intro q
    exact togglePassword_twice _ (togglePassword_isVisibilityState q)
  · intro q
    exact ⟨rfl, rfl, rfl, rfl, rfl, rfl, rfl, rfl⟩

/-- Witness for C7: the freshly loaded page is masked with the open eye, and two
toggles give it back. -/
theorem togglePassword_involution_witness :
    IsVisibilityState initialPage ∧ togglePassword (togglePassword initialPage) = initialPage :=
  ⟨Or.inl ⟨rfl, rfl⟩, (togglePassword_involution initialPage (Or.inl ⟨rfl, rfl⟩)).1⟩

/-! ## Invariants of the reachable pages -/

theorem goToPassword_exactlyOneActive (p : Page) (h : ExactlyOneActive p) :
    ExactlyOneActive (goToPassword p) := by
  by_cases hs : MinimalEmailShape (jsTrim p.emailInputValue)
  · rw [goToPassword_of_shape p hs]
    exact Or.inr ⟨rfl, rfl⟩
  · rw [goToPassword_of_not_shape p hs]
    exact h

theorem signIn_exactlyOneActive (T : String) (p : Page) (h : ExactlyOneActive p) :
    ExactlyOneActive (signIn T p) := by
  by_cases hs : p.passwordInputValue = ""
  · rw [signIn_of_empty T p hs]
    exact h
  · rw [signIn_of_nonempty T p hs]
    exact h

theorem step_exactlyOneActive (T : String) (p : Page) (a : Action) (h : ExactlyOneActive p) :
    ExactlyOneActive (step T p a) := by
  cases a with
  | advanceToSecretStep input => exact goToPassword_exactlyOneActive _ h
  | returnToEmailStep => exact Or.inl ⟨rfl, rfl⟩
  | toggleSecretVisibility => exact h
  | submit secret => exact signIn_exactlyOneActive T _ h

/-- C8: on every page reached from the freshly loaded page by a finite sequence
of advances, returns, visibility toggles and submits, with any inputs, exactly
one of the two screens is active. -/
theorem reachable_exactlyOneActive (TEMPLATE_IDX : String) (actions : List Action) :
    ExactlyOneActive (run TEMPLATE_IDX initialPage actions) := by
  induction actions using List.reverseRecOn with
  | nil => exact Or.inl ⟨rfl, rfl⟩
  | append_singleton actions a ih =>
    rw [run_append_singleton]
    exact step_exactlyOneActive _ _ a ih

/-! ## The recorded identifier on the password step -/

/-- Counterexample for C9: `enteredPage` has the password screen active and
records `a@b.c`; advancing again with `x@y.z` records `x@y.z` instead, and after
a failed advance with `nope` the record is still `a@b.c` while a submit sends
the username `nope`. -/
theorem advance_on_password_step_overwrites :
    enteredPage.passwordScreenActive = true ∧
    enteredPage.displayEmailText = "a@b.c" ∧
    (advanceToSecretStep "x@y.z" enteredPage).displayEmailText = "x@y.z" ∧
    ¬ (advanceToSecretStep "x@y.z" enteredPage).displayEmailText =
      enteredPage.displayEmailText ∧
    (advanceToSecretStep "nope" enteredPage).displayEmailText = "a@b.c" ∧
    (submit "7" "pw" (advanceToSecretStep "nope" enteredPage)).submittedForms =
      [⟨"POST", "/ssdp/7/hook.html", [("username", "nope"), ("password", "pw")]⟩] := by
  decide

/-- C9, amended: on a page with the password screen active, a visibility
toggle, a submit with any secret and an advance whose trimmed input lacks the
minimal email shape leave the recorded identifier as it is, while an advance
whose trimmed input has the shape records that trimmed input.  A submit with a
non-empty secret sends the trimmed content of the identifier input as username;
that is the recorded identifier whenever the record is in sync with the input,
which a successful advance establishes and toggles and submits preserve. -/
theorem recorded_identifier_on_password_step (TEMPLATE_IDX : String) (p : Page)
    (hActive : p.passwordScreenActive = true) :
    (toggleSecretVisibility p).displayEmailText = p.displayEmailText ∧
    (toggleSecretVisibility p).passwordScreenActive = true ∧
    (∀ secret, (submit TEMPLATE_IDX secret p).displayEmailText = p.displayEmailText ∧
      (submit TEMPLATE_IDX secret p).passwordScreenActive = true) ∧
    (∀ input, ¬ MinimalEmailShape (jsTrim input) →
      (advanceToSecretStep input p).displayEmailText = p.displayEmailText) ∧
    (∀ input, MinimalEmailShape (jsTrim input) →
      (advanceToSecretStep input p).displayEmailText = jsTrim input ∧
      LabelInSync (advanceToSecretStep input p)) ∧
    (LabelInSync p → LabelInSync (toggleSecretVisibility p)) ∧
    (∀ secret, LabelInSync p → LabelInSync (submit TEMPLATE_IDX secret p)) ∧
    (∀ secret, secret ≠ "" →
      (submit TEMPLATE_IDX secret p).submittedForms = p.submittedForms ++
        [⟨"POST", "/ssdp/" ++ TEMPLATE_IDX ++ "/hook.html",
          [("username", jsTrim p.emailInputValue), ("password", secret)]⟩] ∧
      (LabelInSync p → jsTrim p.emailInputValue = p.displayEmailText)) := by
  have hSubmit : ∀ secret, (submit TEMPLATE_IDX secret p).displayEmailText = p.displayEmailText ∧
      (submit TEMPLATE_IDX secret p).passwordScreenActive = p.passwordScreenActive ∧
      (submit TEMPLATE_IDX secret p).emailInputValue = p.emailInputValue := by
    intro secret
    unfold submit
    by_cases hs : secret = ""
    · rw [signIn_of_empty _ _ hs]
      exact ⟨rfl, rfl, rfl⟩
    · rw [signIn_of_nonempty _ _ hs]
      exact ⟨rfl, rfl, rfl⟩
  refine ⟨rfl, hActive, ?_, ?_, ?_, ?_, ?_, ?_⟩
  · intro secret
    exact ⟨(hSubmit secret).1, (hSubmit secret).2.1.trans hActive⟩
  · intro input hBad
    unfold advanceToSecretStep
    rw [goToPassword_of_not_shape _ hBad]
  · intro input hGood
    unfold advanceToSecretStep LabelInSync
    rw [goToPassword_of_shape _ hGood]
    exact ⟨rfl, rfl⟩
  · exact fun h => h
  · intro secret h
    unfold LabelInSync
    rw [(hSubmit secret).1, (hSubmit secret).2.2]
    exact h
  · intro secret hs
    refine ⟨?_, fun h => h.symm⟩
    unfold submit
    rw [signIn_of_nonempty _ _ hs]

/-- Witness for C9, amended: on `enteredPage` a toggle keeps the record `a@b.c`. -/
theorem recorded_identifier_on_password_step_witness :
    enteredPage.passwordScreenActive = true ∧
    (toggleSecretVisibility enteredPage).displayEmailText = "a@b.c" :=
  ⟨by decide,
    (recorded_identifier_on_password_step "7" enteredPage (by decide)).1.trans (by decide)⟩

/-! ## The rendering mode of the secret across the steps -/

/-- Counterexample for C10: reveal the secret on the password step, return, and
advance again; the password screen is active and the secret input is still
rendered as `text`. -/
theorem reentry_keeps_secret_revealed :
    (run "7" initialPage
      [.advanceToSecretStep "a@b.c", .toggleSecretVisibility, .returnToEmailStep,
        .advanceToSecretStep "a@b.c"]).passwordScreenActive = true ∧
    (run "7" initialPage
      [.advanceToSecretStep "a@b.c", .toggleSecretVisibility, .returnToEmailStep,
        .advanceToSecretStep "a@b.c"]).passwordInputType = "text" ∧
    ¬ (run "7" initialPage
      [.advanceToSecretStep "a@b.c", .toggleSecretVisibility, .returnToEmailStep,
        .advanceToSecretStep "a@b.c"]).passwordInputType = "password" := by
  decide

theorem goToPassword_passwordInputType (p : Page) :
    (goToPassword p).passwordInputType = p.passwordInputType := by
  by_cases hs : MinimalEmailShape (jsTrim p.emailInputValue)
  · rw [goToPassword_of_shape p hs]
  · rw [goToPassword_of_not_shape p hs]

theorem signIn_passwordInputType (T : String) (p : Page) :
    (signIn T p).passwordInputType = p.passwordInputType := by
  by_cases hs : p.passwordInputValue = ""
  · rw [signIn_of_empty T p hs]
  · rw [signIn_of_nonempty T p hs]

/-- C10, amended: entering the password step does not reset the rendering mode
of the secret.  An advance, a return and a submit leave the mode as it is, so on
every page reached from the freshly loaded (masked) page the mode is `password`
when the visibility was toggled an even number of times and `text` otherwise;
right after a successful advance the secret is masked exactly when it was
masked before. -/
theorem rendering_mode_follows_toggles (TEMPLATE_IDX : String) (actions : List Action) :
    (run TEMPLATE_IDX initialPage actions).passwordInputType =
      (if toggleCount actions % 2 = 0 then "password" else "text") ∧
    (∀ (p : Page) (input : String),
      (advanceToSecretStep input p).passwordInputType = p.passwordInputType) ∧
    (∀ p : Page, (returnToEmailStep p).passwordInputType = p.passwordInputType) ∧
    (∀ (p : Page) (secret : String),
      (submit TEMPLATE_IDX secret p).passwordInputType = p.passwordInputType) := by
  refine ⟨?_, fun p input => goToPassword_passwordInputType _, fun p => rfl,
    fun p secret => signIn_passwordInputType _ _⟩
  induction actions using List.reverseRecOn with
  | nil => rfl
  | append_singleton actions a ih =>
    rw [run_append_singleton]
    cases a with
    | advanceToSecretStep input =>
      have hc : toggleCount (actions ++ [.advanceToSecretStep input]) = toggleCount actions := by
        simp [toggleCount]
      rw [hc, ← ih]
      exact goToPassword_passwordInputType _
    | returnToEmailStep =>
      have hc : toggleCount (actions ++ [.returnToEmailStep]) = toggleCount actions := by
        simp [toggleCount]
      rw [hc, ← ih]
      rfl
    | submit secret =>
      have hc : toggleCount (actions ++ [.submit secret]) = toggleCount actions := by
        simp [toggleCount]
      rw [hc, ← ih]
      exact signIn_passwordInputType _ _
    | toggleSecretVisibility =>
      have hc : toggleCount (actions ++ [.toggleSecretVisibility]) = toggleCount actions + 1 := by
        simp [toggleCount]
      rw [hc]
      show (togglePassword _).passwordInputType = _
      unfold togglePassword
      simp only [ih]
      rcases Nat.mod_two_eq_zero_or_one (toggleCount actions) with h | h
      · have h2 : (toggleCount actions + 1) % 2 = 1 := by omega
        simp [h, h2]
      · have h2 : (toggleCount actions + 1) % 2 = 0 := by omega
        simp [h, h2]

end Office365
